import Mathlib

/-!
Verification of the SimpleChatting server (`server.py`) membership and
permission state machine.

The Python classes `Permissions`, `Group`, `User` and `Client` are embedded
shallowly.  Python `Permissions` objects are mutable and shared by reference
(several members may alias one object), so the embedding carries an explicit
heap: `Sys.pstore` maps a permission-object reference (its index) to the
stored 8-bit value, and `Sys.cstore` maps a client-object reference to the
client's fields.  `uuid4` identity generation is modelled by the monotone
counter `Sys.nextUid`: each freshly generated id is the current counter value
and every previously generated id is strictly smaller.  Fallible Python code
(raising `TypeError`, `ValueError`, `Forbidden`, `AttributeError`) is
modelled with `Except PyError`.
-/

set_option maxRecDepth 10000

/-- Reference into the permission-object heap `Sys.pstore`. -/
abbrev PRef := Nat

/-- Reference into the client-object heap `Sys.cstore`. -/
abbrev CRef := Nat

/-- Errors raised by the Python source: `TypeError`, `ValueError`,
the custom `Forbidden`, and `AttributeError` (attribute access on `None`). -/
inductive PyError where
  | typeError
  | valueError
  | forbidden
  | attributeError
deriving DecidableEq

/-- Fields of a Python `Client` object (class `Client(User)`, lines 327-419).
`hasGroup` is whether `_group` still points to the group (`False` models
`_group = None` after `_kill`).  `permRef` is the reference of the
`Permissions` object bound to `_permissions` (`none` models `None`), and
`nickname` likewise models `_nickname`.  `_kill` leaves `name`, `uid` and
`sock` untouched (the `socket` lines in `_kill` are commented out in the
source). -/
structure ClientObj where
  name : String
  uid : Nat
  sock : Nat
  hasGroup : Bool
  permRef : Option PRef
  nickname : Option String
deriving DecidableEq

/-- Fields of the Python `Group` object (lines 140-278).  `gname`,
`ownerRef` and `defaultPermRef` become `none` when `delete` assigns `None`.
`clients` is the roster in insertion order; `bans` is the `_bans` set of
banned identity numbers. -/
structure GroupState where
  gname : Option String
  ownerRef : Option CRef
  clients : List CRef
  bans : List Nat
  defaultPermRef : Option PRef
  isPublic : Bool
  gid : Nat
deriving DecidableEq

/-- Whole-system state: the two object heaps, the single group, and the
fresh-identity counter modelling `uuid4`. -/
structure Sys where
  pstore : List Nat
  cstore : List ClientObj
  g : GroupState
  nextUid : Nat
deriving DecidableEq

/-- A Python `User` object (lines 282-323): display name, generated id,
and socket handle. -/
structure UserObj where
  name : String
  uid : Nat
  sock : Nat
deriving DecidableEq

/-- Value held by the `Permissions` object at reference `r`. -/
def pval (s : Sys) (r : PRef) : Nat :=
  s.pstore.getD r 0

/-- Client object at reference `c`. -/
def cobj (s : Sys) (c : CRef) : ClientObj :=
  s.cstore.getD c ⟨"", 0, 0, false, none, none⟩

/-- Replace the client object at reference `c`. -/
def setClient (s : Sys) (c : CRef) (o : ClientObj) : Sys :=
  { s with cstore := s.cstore.set c o }

/-- Permission value currently held by client `c` (0 when `_permissions`
is `None`; the source would raise on such access, and no modelled path
reads permissions of a killed client). -/
def permValOf (s : Sys) (c : CRef) : Nat :=
  match (cobj s c).permRef with
  | some r => pval s r
  | none => 0

/-- `Permissions.__le__` (line 122): `(self._value & other._value) == self._value`. -/
def Permissions.le (a b : Nat) : Bool :=
  (a &&& b) == a

/-- `Permissions.__ge__` (line 127): `(self._value | other._value) == self._value`. -/
def Permissions.ge (a b : Nat) : Bool :=
  (a ||| b) == a

/-- `Permissions.read_messages` (line 70): bit 0 of the value. -/
def Permissions.read_messages (v : Nat) : Bool :=
  (v >>> 0) &&& 1 == 1

/-- `Permissions.send_messages` (line 74): bit 1 of the value. -/
def Permissions.send_messages (v : Nat) : Bool :=
  (v >>> 1) &&& 1 == 1

/-- `Permissions.update_permissions` (line 98): bit 7 of the value. -/
def Permissions.update_permissions (v : Nat) : Bool :=
  (v >>> 7) &&& 1 == 1

/-- `Permissions.update` (lines 105-112): validates `0 <= v <= 255`
(`ValueError` otherwise) and overwrites the value stored in the object at
reference `r`. -/
def permUpdate (s : Sys) (r : PRef) (v : Int) : Except PyError Sys :=
  if v < 0 then .error .valueError
  else if v > 255 then .error .valueError
  else .ok { s with pstore := s.pstore.set r v.toNat }

/-- `Client.is_owner` (line 356): `self._group.owner == self`, where `==`
is `User.__eq__`, i.e. socket equality; comparing with `None` yields
`False`. -/
def isOwner (s : Sys) (c : CRef) : Bool :=
  match s.g.ownerRef with
  | some o => (cobj s o).sock == (cobj s c).sock
  | none => false

/-- Remove the first client reference in `l` whose socket equals `sk`
(`list.remove(self)` with `User.__eq__`, i.e. socket equality).  If no
element matches, the list is returned unchanged (the source would raise
`ValueError`; no modelled path reaches that case). -/
def removeFirstBySock (s : Sys) (sk : Nat) : List CRef → List CRef
  | [] => []
  | c :: cs => if (cobj s c).sock == sk then cs else c :: removeFirstBySock s sk cs

/-- `Client._kill` (lines 412-419): remove `self` from the group roster,
then clear `_group`, `_permissions` and `_nickname`.  The socket lines are
commented out in the source, so `sock` survives. -/
def kill (s : Sys) (c : CRef) : Sys :=
  let sk := (cobj s c).sock
  let s1 := { s with g := { s.g with clients := removeFirstBySock s sk s.g.clients } }
  setClient s1 c { cobj s1 c with hasGroup := false, permRef := none, nickname := none }

/-- `Client.kick` (lines 394-398): `Forbidden` if the member owns the
group, otherwise `_kill`. -/
def Client.kick (s : Sys) (c : CRef) : Except PyError Sys :=
  if isOwner s c then .error .forbidden
  else .ok (kill s c)

/-- `Client.ban` (lines 400-404): remember the group, `kick`, then add
`self._id` to the group's `_bans` set. -/
def Client.ban (s : Sys) (c : CRef) : Except PyError Sys :=
  match Client.kick s c with
  | .error e => .error e
  | .ok s1 =>
    .ok { s1 with g := { s1.g with
      bans := if s1.g.bans.contains (cobj s1 c).uid then s1.g.bans
              else s1.g.bans ++ [(cobj s1 c).uid] } }

/-- `Client.set_permissions` (lines 359-365): no-op if `new_value` equals
the current value, then `Forbidden` if owner, otherwise
`Permissions.update` on the member's permission object. -/
def Client.set_permissions (s : Sys) (c : CRef) (v : Int) : Except PyError Sys :=
  match (cobj s c).permRef with
  | none => .error .attributeError
  | some pr =>
    if v = (pval s pr : Int) then .ok s
    else if isOwner s c then .error .forbidden
    else permUpdate s pr v

/-- `Client.reset_permissions` (lines 367-373): no-op if the member's
permission value equals the group default value (`Permissions.__eq__`
compares values), then `Forbidden` if owner, otherwise rebind
`_permissions` to the group's default `Permissions` object itself (no
copy). -/
def Client.reset_permissions (s : Sys) (c : CRef) : Except PyError Sys :=
  match (cobj s c).permRef with
  | none => .error .attributeError
  | some pr =>
    match s.g.defaultPermRef with
    | none =>
      if isOwner s c then .error .forbidden
      else .ok (setClient s c { cobj s c with permRef := none })
    | some dp =>
      if pval s pr = pval s dp then .ok s
      else if isOwner s c then .error .forbidden
      else .ok (setClient s c { cobj s c with permRef := some dp })

/-- First roster member whose socket equals `sk` (the membership loop of
`Group.add`, lines 203-205, using `User.__eq__`). -/
def firstBySock (s : Sys) (sk : Nat) : List CRef → Option CRef
  | [] => none
  | c :: cs => if (cobj s c).sock == sk then some c else firstBySock s sk cs

/-- `Group.add` (lines 197-211) applied to a bare `User` (the only call
site, `receive`, always passes a fresh `User`; the `isinstance(user,
Client)` early return is therefore not taken).  Order as in the source:
idempotent-join scan over the roster, then the ban check on `user.id`,
then construction of a `Client` which validates the permission object
(`TypeError` when the group default is `None`) and the name (`ValueError`
when empty), draws a fresh identity from `uuid4`, takes the group's
default `Permissions` object itself as `_permissions` (no copy), and is
appended to the roster. -/
def Group.add (s : Sys) (u : UserObj) : Except PyError (Sys × CRef) :=
  match firstBySock s u.sock s.g.clients with
  | some m => .ok (s, m)
  | none =>
    if s.g.bans.contains u.uid then .error .forbidden
    else
      match s.g.defaultPermRef with
      | none => .error .typeError
      | some dp =>
        if u.name = "" then .error .valueError
        else
          let newRef := s.cstore.length
          let obj : ClientObj := ⟨u.name, s.nextUid, u.sock, true, some dp, some u.name⟩
          .ok ({ s with
                  cstore := s.cstore ++ [obj],
                  nextUid := s.nextUid + 1,
                  g := { s.g with clients := s.g.clients ++ [newRef] } }, newRef)

/-- `Group.search_member` (lines 213-220): first roster member whose
nickname equals the string (the caller only uses the member component). -/
def Group.search_member (s : Sys) (str : String) : Option CRef :=
  s.g.clients.find? (fun c => (cobj s c).nickname == some str)

/-- `Group.change_default_permissions` (lines 232-236): no-op when the new
value equals the default object's current value, otherwise mutate the
shared default `Permissions` object in place via `update`. -/
def Group.change_default_permissions (s : Sys) (v : Int) : Except PyError Sys :=
  match s.g.defaultPermRef with
  | none => .error .attributeError
  | some dp =>
    if v = (pval s dp : Int) then .ok s
    else permUpdate s dp v

/-- Argument passed to `transfer_ownership`: either a bare `User` object or
a `Client` object (the `isinstance(new_owner, Client)` runtime check
distinguishes exactly these). -/
inductive PyArg where
  | ofUser (u : UserObj)
  | ofClient (c : CRef)

/-- `Group.transfer_ownership` (lines 248-255): `TypeError` when the
argument is not a `Client` instance; no-op when the current owner compares
equal (socket equality; `None == new_owner` is `False`); otherwise bind a
fresh all-bits `Permissions` object to the new owner and reassign
`_owner`.  No roster-membership check is performed. -/
def Group.transfer_ownership (s : Sys) (a : PyArg) : Except PyError Sys :=
  match a with
  | .ofUser _ => .error .typeError
  | .ofClient c =>
    let same : Bool :=
      match s.g.ownerRef with
      | some o => (cobj s o).sock == (cobj s c).sock
      | none => false
    if same then .ok s
    else
      let pr := s.pstore.length
      let s1 := { s with pstore := s.pstore ++ [255] }
      let s2 := setClient s1 c { cobj s1 c with permRef := some pr }
      .ok { s2 with g := { s2.g with ownerRef := some c } }

/-- The `for member in self._clients: member._kill()` loop of
`Group.delete` (lines 264-265).  Python's list iterator keeps an index `i`
into the live list while `_kill` removes the current element, so the
element that slides into index `i` is skipped.  `fuel` is the initial
roster length, which bounds the number of iterations exactly. -/
def deleteLoop : Sys → Nat → Nat → Sys
  | s, _, 0 => s
  | s, i, fuel + 1 =>
    if h : i < s.g.clients.length then
      deleteLoop (kill s (s.g.clients.get ⟨i, h⟩)) (i + 1) fuel
    else s

/-- `Group.delete` (lines 257-267): mark the group inert (`is_public`,
`id`, `name`, `default_perms`, `owner`), run the kill loop over the live
roster list, then clear the roster and the ban set. -/
def Group.delete (s : Sys) : Sys :=
  let s1 := { s with g := { s.g with
      isPublic := false, gid := 0, gname := none,
      defaultPermRef := none, ownerRef := none } }
  let s2 := deleteLoop s1 0 s1.g.clients.length
  { s2 with g := { s2.g with clients := [], bans := [] } }

/-- `User.__init__` (lines 287-294): `ValueError` on an empty name,
otherwise a fresh `uuid4` identity is drawn. -/
def mkUser (s : Sys) (name : String) (sk : Nat) : Except PyError (Sys × UserObj) :=
  if name = "" then .error .valueError
  else .ok ({ s with nextUid := s.nextUid + 1 }, ⟨name, s.nextUid, sk⟩)

/-- `Group.__init__` (lines 145-160) applied to a bare founding `User`:
validate the name, allocate the owner's fresh all-bits `Permissions`
object, promote the founder to a `Client` (fresh identity), and install
roster `[owner]`, empty bans, a fresh default-permissions object of value
19, public visibility and a nonzero id. -/
def Group.init (s : Sys) (name : String) (u : UserObj) : Except PyError Sys :=
  if name = "" then .error .valueError
  else
    let pAll := s.pstore.length
    let s1 := { s with pstore := s.pstore ++ [255] }
    if u.name = "" then .error .valueError
    else
      let oref := s1.cstore.length
      let ownerObj : ClientObj := ⟨u.name, s1.nextUid, u.sock, true, some pAll, some u.name⟩
      let s2 := { s1 with cstore := s1.cstore ++ [ownerObj], nextUid := s1.nextUid + 1 }
      let pDef := s2.pstore.length
      .ok { s2 with
              pstore := s2.pstore ++ [19],
              g := ⟨some name, some oref, [oref], [], some pDef, true, 1⟩ }

/-- Python `str.strip()`: remove leading and trailing whitespace
characters. -/
def pyStrip (x : String) : String :=
  String.mk (((x.toList.dropWhile Char.isWhitespace).reverse.dropWhile
    Char.isWhitespace).reverse)

/-- Whether `Client.send` (lines 406-410) actually writes to the socket:
the message is dropped when it strips to the empty string. -/
def Client.send_delivers (msg : String) : Bool :=
  !(pyStrip msg == "")

/-- The `exc is None or exc != client` test of the broadcast loop (line
437): `!=` falls back to socket inequality via `User.__eq__`. -/
def notExcluded (s : Sys) (exc : Option CRef) (c : CRef) : Bool :=
  match exc with
  | none => true
  | some e => !((cobj s e).sock == (cobj s c).sock)

/-- Loop body of `broadcast` (lines 434-438): iterate the roster, keep the
clients with the `read_messages` bit that are not the excluded member,
and let `Client.send` decide whether the socket is written.  The result is
the list of client references whose sockets receive the message. -/
def broadcastLoop (s : Sys) (msg : String) (exc : Option CRef) : List CRef → List CRef
  | [] => []
  | c :: cs =>
    if Permissions.read_messages (permValOf s c) && notExcluded s exc c then
      (if Client.send_delivers msg then [c] else []) ++ broadcastLoop s msg exc cs
    else broadcastLoop s msg exc cs

/-- `broadcast(message, exc)` (lines 434-438): references of the clients
whose sockets receive the message. -/
def broadcast (s : Sys) (msg : String) (exc : Option CRef) : List CRef :=
  broadcastLoop s msg exc s.g.clients

/-- Modelled from the spec (section 4.5): the set of intended broadcast
recipients, "every Member currently in the Group's roster at call time
whose `read_messages` permission is set and who is not `excludedMember`",
for comparison with the implementation's `broadcast`. -/
def specRecipients (s : Sys) (exc : Option CRef) : List CRef :=
  s.g.clients.filter (fun c =>
    Permissions.read_messages (permValOf s c) && notExcluded s exc c)

/-- Accumulator loop for `pySplitWs`: `cur` holds the characters of the
current token in reverse. -/
def splitWsAux : List Char → List Char → List String
  | [], cur => if cur.isEmpty then [] else [String.mk cur.reverse]
  | c :: cs, cur =>
    if c.isWhitespace then
      (if cur.isEmpty then [] else [String.mk cur.reverse]) ++ splitWsAux cs []
    else splitWsAux cs (c :: cur)

/-- Python `str.split()` with no argument: split on runs of whitespace,
dropping empty pieces. -/
def pySplitWs (x : String) : List String :=
  splitWsAux x.toList []

/-- Digit tail of a Python integer literal: digits with single underscores
allowed between digits, accumulating onto `acc`. -/
def pyDigitsAux : List Char → Nat → Option Nat
  | [], acc => some acc
  | c :: cs, acc =>
    if c.isDigit then pyDigitsAux cs (acc * 10 + (c.toNat - 48))
    else if c == '_' then
      match cs with
      | [] => none
      | d :: rest =>
        if d.isDigit then pyDigitsAux rest (acc * 10 + (d.toNat - 48))
        else none
    else none

/-- Python `int(str)` on a whitespace-free token (tokens produced by
`str.split()` carry no whitespace): an optional sign followed by a
nonempty digit sequence, with single underscores allowed between digits.
Returns `none` where Python raises `ValueError`. -/
def pyInt (x : String) : Option Int :=
  match x.toList with
  | [] => none
  | '+' :: d :: rest =>
    if d.isDigit then (pyDigitsAux rest (d.toNat - 48)).map (fun n => (n : Int)) else none
  | '-' :: d :: rest =>
    if d.isDigit then (pyDigitsAux rest (d.toNat - 48)).map (fun n => -(n : Int)) else none
  | d :: rest =>
    if d.isDigit then (pyDigitsAux rest (d.toNat - 48)).map (fun n => (n : Int)) else none

/-- Observable result of one dispatched line: either a message sent back to
the acting client alone, or a message broadcast to the group.  The `sty`
colour codes of the source are elided from the payload text. -/
inductive Outcome where
  | reply (msg : String)
  | broadcastMsg (msg : String)
deriving DecidableEq

/-- The `/setperms` branch of `handle` (lines 596-630), reached when
`lowered.startswith("/setperms ")`.  In source order: the actor's
`update_permissions` bit; the first whitespace token of `decoded[10:]`
(reply when missing); Python `int` parsing plus the `[0,255]` range check;
the actor-superset check `client.permissions >= Permissions(number)`;
nickname lookup on `decoded[11+len(str(number)):]`; the self, owner and
target-subset checks; finally `member.set_permissions(number)` followed by
the group-wide broadcast. -/
def handleSetperms (s : Sys) (actor : CRef) (decoded : String) : Sys × Outcome :=
  if !(Permissions.update_permissions (permValOf s actor)) then
    (s, .reply "Permission denied!")
  else
    match pySplitWs (decoded.drop 10) with
    | [] => (s, .reply "No number specified!")
    | tok :: _ =>
      match pyInt tok with
      | none => (s, .reply "Permission value not recognised!")
      | some n =>
        if n < 0 ∨ n > 255 then (s, .reply "Permission value not recognised!")
        else if !(Permissions.ge (permValOf s actor) n.toNat) then
          (s, .reply "Cannot change permissions you do not have!")
        else
          match Group.search_member s (decoded.drop (11 + (toString n.toNat).length)) with
          | none => (s, .reply "User not found!")
          | some member =>
            if (cobj s actor).sock == (cobj s member).sock then
              (s, .reply "You cannot change yourself permissions!")
            else if isOwner s member then
              (s, .reply "Owner cannot be changed permissions!")
            else if !(Permissions.le (permValOf s member) (permValOf s actor)) then
              (s, .reply "Cannot set these permissions for member as they have permissions you do not have!")
            else
              match Client.set_permissions s member n with
              | .ok s2 =>
                (s2, .broadcastMsg ((cobj s2 member).nickname.getD "" ++ " now has permissions value " ++ toString n.toNat ++ "!"))
              | .error _ => (s, .reply "")

/-- Modelled from the spec (the `/setperms` row of section 4.4): the
claim's preconditions on an actor, a value and a nickname — actor holds
`update_permissions`, actor's set is a superset of the requested value,
the nickname resolves to a current member that is not the actor, not the
owner, and whose permissions are below or equal to the actor's. -/
def setpermsPre (s : Sys) (actor : CRef) (v : Nat) (nick : String) : Bool :=
  Permissions.update_permissions (permValOf s actor)
    && Permissions.ge (permValOf s actor) v
    && (match Group.search_member s nick with
        | none => false
        | some t =>
          !((cobj s actor).sock == (cobj s t).sock)
            && !(isOwner s t)
            && Permissions.le (permValOf s t) (permValOf s actor))

/-- Initial empty system: no objects, no group, identity counter at 0. -/
def sys0 : Sys :=
  ⟨[], [], ⟨none, none, [], [], none, false, 0⟩, 0⟩

/-- Extract the resulting state of a successful operation (scenario states
below are all built from operations that succeed, which the theorems about
them also record). -/
def unwrapS (e : Except PyError Sys) : Sys :=
  match e with
  | .ok s => s
  | .error _ => sys0

/-- State component of a successful `mkUser`. -/
def mkUserSt (e : Except PyError (Sys × UserObj)) : Sys :=
  match e with
  | .ok p => p.1
  | .error _ => sys0

/-- User component of a successful `mkUser`. -/
def mkUserUsr (e : Except PyError (Sys × UserObj)) : UserObj :=
  match e with
  | .ok p => p.2
  | .error _ => ⟨"x", 0, 0⟩

/-- Scenario: the user "alice" (socket 100) founds the group "Default" and
is promoted to owner (client reference 0) with the all-bits permission
object; the group default object holds 19. -/
def scenAlice : Except PyError Sys := do
  let p ← mkUser sys0 "alice" 100
  Group.init p.1 "Default" p.2

/-- State after `scenAlice`. -/
def sysAlice : Sys := unwrapS scenAlice

/-- Scenario: after `scenAlice`, the user "bob" (socket 200) joins via
`Group.add` and becomes client reference 1 with the group's default
permission object (value 19). -/
def scenAB : Except PyError Sys := do
  let s2 ← scenAlice
  let p ← mkUser s2 "bob" 200
  let q ← Group.add p.1 p.2
  .ok q.1

/-- State after `scenAB`. -/
def sysAB : Sys := unwrapS scenAB

/-- State after `Group.change_default_permissions 63` on the two-member
group. -/
def sysC1 : Sys := unwrapS (Group.change_default_permissions sysAB 63)

/-- State after `Group.delete` on the two-member group. -/
def sysC2 : Sys := Group.delete sysAB

/-- State after kicking bob out of the two-member group. -/
def sysC4kick : Sys := unwrapS (Client.kick sysAB 1)

/-- State after transferring ownership to the already-destroyed bob. -/
def sysC4own : Sys := unwrapS (Group.transfer_ownership sysC4kick (.ofClient 1))

/-- State after banning bob (client 1) from the two-member group. -/
def sysC5ban : Sys := unwrapS (Client.ban sysAB 1)

/-- State after kicking bob (client 1) from the two-member group. -/
def sysC5kick : Sys := unwrapS (Client.kick sysAB 1)

/-- A user presenting bob's identity number 3 on a fresh socket. -/
def userCarol : UserObj := ⟨"carol", 3, 300⟩

/-- State after constructing the user "bob" on top of the founded group. -/
def sysA2 : Sys := mkUserSt (mkUser sysAlice "bob" 200)

/-- The user object "bob" (identity 2, socket 200). -/
def userBob : UserObj := mkUserUsr (mkUser sysAlice "bob" 200)

/-- Reading a client reference after `setClient`: the stored object when the
reference is the written (in-range) one, the old object otherwise. -/
theorem cobj_setClient (s : Sys) (c d : CRef) (o : ClientObj) :
    cobj (setClient s c o) d = if c = d ∧ c < s.cstore.length then o else cobj s d := by
  unfold cobj setClient
  simp only [List.getD_eq_getElem?_getD, List.getElem?_set]
  by_cases h1 : c = d
  · subst h1
    by_cases h2 : c < s.cstore.length
    · simp [h2]
    · simp [h2, List.getElem?_eq_none (Nat.not_lt.mp h2)]
  · simp [h1]

/-- `kill` changes no client identity. -/
theorem uid_kill (s : Sys) (c d : CRef) : (cobj (kill s c) d).uid = (cobj s d).uid := by
  unfold kill
  rw [cobj_setClient]
  by_cases h : c = d ∧ c < s.cstore.length
  · rw [if_pos h]
    rcases h with ⟨h1, h2⟩
    subst h1
    rfl
  · rw [if_neg h]
    rfl

/-- `kill` preserves the ban set. -/
theorem bans_kill (s : Sys) (c : CRef) : (kill s c).g.bans = s.g.bans := rfl

/-- `kill` preserves the default-permissions reference. -/
theorem defaultPermRef_kill (s : Sys) (c : CRef) :
    (kill s c).g.defaultPermRef = s.g.defaultPermRef := rfl

/-- `Group.add` scans the roster by socket equality: the scan comes back
empty when no roster member holds the socket. -/
theorem firstBySock_eq_none (s : Sys) (sk : Nat) (l : List CRef)
    (h : ∀ c ∈ l, (cobj s c).sock ≠ sk) : firstBySock s sk l = none := by
  induction l with
  | nil => rfl
  | cons c cs ih =>
    unfold firstBySock
    have hc : ((cobj s c).sock == sk) = false := by
      simp only [beq_eq_false_iff_ne, ne_eq]
      exact h c (List.mem_cons_self c cs)
    rw [hc]
    simp only [Bool.false_eq_true, if_false]
    exact ih (fun d hd => h d (List.mem_cons_of_mem c hd))

/-- Claim C7: for all PermissionSet values A and B, `A <= B` holds iff
`(A.value & B.value) == A.value`; consequently `<=` is reflexive and
antisymmetric (`A <= B` and `B <= A` iff the values are equal), and it is a
partial, not total, order (the values 1 and 2 are incomparable). -/
theorem c7_le_partial_order (a b : Nat) (ha : a ≤ 255) (hb : b ≤ 255) :
    (Permissions.le a b = true ↔ a &&& b = a)
    ∧ Permissions.le a a = true
    ∧ ((Permissions.le a b = true ∧ Permissions.le b a = true) ↔ a = b)
    ∧ (Permissions.le 1 2 = false ∧ Permissions.le 2 1 = false) := by
  refine ⟨by simp [Permissions.le], by simp [Permissions.le, Nat.and_self], ?_, by decide⟩
  constructor
  · rintro ⟨h1, h2⟩
    simp only [Permissions.le, beq_iff_eq] at h1 h2
    rw [← h1, Nat.and_comm]
    exact h2
  · rintro rfl
    simp [Permissions.le, Nat.and_self]

/-- Witness for C7 at the PermissionSet values 19 and 255. -/
theorem c7_le_partial_order_witness :
    (Permissions.le 19 255 = true ↔ 19 &&& 255 = 19)
    ∧ Permissions.le 19 19 = true
    ∧ ((Permissions.le 19 255 = true ∧ Permissions.le 255 19 = true) ↔ 19 = 255)
    ∧ (Permissions.le 1 2 = false ∧ Permissions.le 2 1 = false) :=
  c7_le_partial_order 19 255 (by decide) (by decide)

/-- Claim C1 (code bug evidence): `change_default_permissions` is claimed
to leave existing non-owner members' permission values unchanged, but
`Group.add` binds each new member to the group's default `Permissions`
object itself, and `change_default_permissions` mutates that object in
place.  Concretely: bob (client 1, not the owner) joins with value 19;
after `change_default_permissions 63` his permission value reads 63.  The
owner, holding a separate all-bits object, keeps 255. -/
theorem c1_change_default_retroactive :
    isOwner sysAB 1 = false
    ∧ permValOf sysAB 1 = 19
    ∧ Group.change_default_permissions sysAB 63 = .ok sysC1
    ∧ permValOf sysC1 1 = 63
    ∧ permValOf sysC1 0 = 255 := by
  refine ⟨rfl, rfl, ?_, rfl, rfl⟩
  rfl

/-- Claim C2 (code bug evidence): `delete` is claimed to leave every
previously-rostered member destroyed.  The roster and ban set do end up
empty, and the owner (client 0) is destroyed, but the kill loop removes
elements from the list it is iterating, so bob (client 1, the second of
the two roster entries) is skipped: his group reference, permission object
and nickname all survive. -/
theorem c2_delete_skips_second_member :
    sysAB.g.clients = [0, 1]
    ∧ sysC2.g.clients = []
    ∧ sysC2.g.bans = []
    ∧ (cobj sysC2 0).hasGroup = false
    ∧ (cobj sysC2 0).permRef = none
    ∧ (cobj sysC2 0).nickname = none
    ∧ (cobj sysC2 1).hasGroup = true
    ∧ (cobj sysC2 1).permRef = some 1
    ∧ (cobj sysC2 1).nickname = some "bob" := by
  refine ⟨rfl, rfl, rfl, rfl, rfl, rfl, rfl, rfl, rfl⟩

/-- Claim C3 (counterexample): `set_permissions` on the owner with the
owner's current value (255, inside `[0,255]`) does not fail with
`Forbidden` — the source checks the no-op equality before the owner
check, so the call returns successfully. -/
theorem c3_counterexample_owner_noop :
    isOwner sysAlice 0 = true
    ∧ permValOf sysAlice 0 = 255
    ∧ Client.set_permissions sysAlice 0 255 = .ok sysAlice := by
  exact ⟨rfl, rfl, rfl⟩

/-- Claim C3 (amended): for the owner, `set_permissions(newValue)` with
`newValue` in `[0,255]` fails with `Forbidden` exactly when `newValue`
differs from the owner's current permission value (it is a successful
no-op when equal), and `reset_permissions` fails with `Forbidden` exactly
when the owner's permission value differs from the group default value. -/
theorem c3_owner_set_reset_forbidden (s : Sys) (c : CRef) (pr dp : PRef) (v : Int)
    (hpr : (cobj s c).permRef = some pr) (hdp : s.g.defaultPermRef = some dp)
    (hown : isOwner s c = true) (h0 : 0 ≤ v) (h1 : v ≤ 255) :
    (Client.set_permissions s c v =
      if v = (pval s pr : Int) then .ok s else .error .forbidden)
    ∧ (Client.reset_permissions s c =
      if pval s pr = pval s dp then .ok s else .error .forbidden) := by
  constructor
  · unfold Client.set_permissions
    rw [hpr]
    by_cases h : v = (pval s pr : Int)
    · simp [h]
    · simp [h, hown]
  · unfold Client.reset_permissions
    rw [hpr, hdp]
    by_cases h : pval s pr = pval s dp
    · simp [h]
    · simp [h, hown]

/-- Witness for the amended C3: on the founding owner (value 255, default
19), `set_permissions 19` and `reset_permissions` both fail with
`Forbidden`. -/
theorem c3_owner_set_reset_forbidden_witness :
    Client.set_permissions sysAlice 0 19 = .error .forbidden
    ∧ Client.reset_permissions sysAlice 0 = .error .forbidden := by
  have h := c3_owner_set_reset_forbidden sysAlice 0 0 1 19
    (by decide) (by decide) (by decide) (by decide) (by decide)
  refine ⟨?_, ?_⟩
  · rw [h.1, if_neg (by decide)]
  · rw [h.2, if_neg (by decide)]

/-- Claim C4 (counterexample): after bob (client 1) is kicked he is no
longer a current member (the roster is `[0]` and his fields are cleared),
yet `transfer_ownership` accepts him — the source only checks
`isinstance(new_owner, Client)`, which a destroyed member still satisfies
— and makes him the owner with a fresh all-bits permission object, instead
of failing with `TypeMismatch`. -/
theorem c4_counterexample_destroyed_new_owner :
    sysC4kick.g.clients = [0]
    ∧ (cobj sysC4kick 1).hasGroup = false
    ∧ Group.transfer_ownership sysC4kick (.ofClient 1) = .ok sysC4own
    ∧ sysC4own.g.ownerRef = some 1
    ∧ permValOf sysC4own 1 = 255
    ∧ sysC4own.g.clients = [0] := by
  exact ⟨rfl, rfl, rfl, rfl, rfl, rfl⟩

/-- Claim C4 (amended): `transfer_ownership` fails with `TypeMismatch`
exactly when the argument is not a `Client` instance (e.g. a bare `User`);
any `Client` object — current member or not — is accepted.  When the
argument is a client whose socket differs from the current owner's (in
particular any current non-owner member), the call succeeds, binds a fresh
all-bits permission object to it and reassigns the owner reference. -/
theorem c4_transfer_ownership_typecheck (s : Sys) (u : UserObj) (c o : CRef)
    (hc : c < s.cstore.length) (ho : s.g.ownerRef = some o)
    (hmem : c ∈ s.g.clients)
    (hne : (cobj s o).sock ≠ (cobj s c).sock) :
    Group.transfer_ownership s (.ofUser u) = .error .typeError
    ∧ ∃ s2, Group.transfer_ownership s (.ofClient c) = .ok s2
        ∧ s2.g.ownerRef = some c
        ∧ permValOf s2 c = 255 := by
  refine ⟨rfl, ?_⟩
  have hsame : ((cobj s o).sock == (cobj s c).sock) = false := by
    simp only [beq_eq_false_iff_ne, ne_eq]
    exact hne
  simp only [Group.transfer_ownership, ho, hsame, Bool.false_eq_true, if_false]
  refine ⟨_, rfl, rfl, ?_⟩
  simp only [permValOf, cobj, setClient, pval, List.getD_eq_getElem?_getD, List.getElem?_set]
  simp [hc, List.getElem?_concat_length]

/-- Witness for the amended C4: in the two-member group, a bare `User` is
rejected with `TypeError` while the current member bob (client 1) becomes
owner with value 255. -/
theorem c4_transfer_ownership_typecheck_witness :
    Group.transfer_ownership sysAB (.ofUser ⟨"eve", 9, 900⟩) = .error .typeError
    ∧ ∃ s2, Group.transfer_ownership sysAB (.ofClient 1) = .ok s2
        ∧ s2.g.ownerRef = some 1
        ∧ permValOf s2 1 = 255 :=
  c4_transfer_ownership_typecheck sysAB ⟨"eve", 9, 900⟩ 1 0
    (by decide) (by decide) (by decide) (by decide)

/-- A list always contains its appended last element. -/
theorem contains_concat_self (l : List Nat) (a : Nat) : (l ++ [a]).contains a = true := by
  induction l with
  | nil => simp
  | cons x xs ih => simpa using Or.inr (by simpa using ih)

/-- Claim C5: banning records the member's identity, so a later `add` of a
user carrying that identity (on a fresh socket) fails with `Forbidden`,
while after a plain kick — the member never having been banned — a later
`add` with the same identity succeeds and appends a new member to the
roster. -/
theorem c5_ban_blocks_rejoin_kick_does_not (s : Sys) (m : CRef) (u1 u2 : UserObj)
    (dp : PRef) (hdp : s.g.defaultPermRef = some dp)
    (hbm : s.g.bans.contains (cobj s m).uid = false)
    (hn2 : u2.name ≠ "") :
    (∀ s1, Client.ban s m = .ok s1 →
      u1.uid = (cobj s m).uid →
      (∀ c ∈ s1.g.clients, (cobj s1 c).sock ≠ u1.sock) →
      Group.add s1 u1 = .error .forbidden)
    ∧ (∀ s1, Client.kick s m = .ok s1 →
      u2.uid = (cobj s m).uid →
      (∀ c ∈ s1.g.clients, (cobj s1 c).sock ≠ u2.sock) →
      ∃ s2 m2, Group.add s1 u2 = .ok (s2, m2)
        ∧ s2.g.clients = s1.g.clients ++ [m2]) := by
  constructor
  · intro s1 hb hu hsock
    cases how : isOwner s m with
    | true =>
      unfold Client.ban Client.kick at hb
      rw [how] at hb
      simp at hb
    | false =>
      unfold Client.ban Client.kick at hb
      rw [how] at hb
      simp only [Bool.false_eq_true, if_false, bans_kill, uid_kill, hbm,
        Except.ok.injEq] at hb
      subst hb
      have hfb := firstBySock_eq_none _ u1.sock _ hsock
      unfold Group.add
      rw [hfb]
      simp only [hu]
      rw [if_pos (contains_concat_self s.g.bans (cobj s m).uid)]
  · intro s1 hk hu hsock
    cases how : isOwner s m with
    | true =>
      unfold Client.kick at hk
      rw [how] at hk
      simp at hk
    | false =>
      unfold Client.kick at hk
      rw [how] at hk
      simp only [Bool.false_eq_true, if_false, Except.ok.injEq] at hk
      subst hk
      have hfb := firstBySock_eq_none _ u2.sock _ hsock
      unfold Group.add
      rw [hfb]
      have hcont : (kill s m).g.bans.contains u2.uid = false := by
        rw [bans_kill, hu]
        exact hbm
      rw [hcont]
      simp only [Bool.false_eq_true, if_false, defaultPermRef_kill, hdp]
      rw [if_neg hn2]
      exact ⟨_, _, rfl, rfl⟩

/-- Witness for C5: after banning bob, adding a user with bob's identity
fails with `Forbidden`; after merely kicking bob, the same add succeeds
and appends a new member. -/
theorem c5_ban_blocks_rejoin_kick_does_not_witness :
    Group.add sysC5ban userCarol = .error .forbidden
    ∧ ∃ s2 m2, Group.add sysC5kick userCarol = .ok (s2, m2)
        ∧ s2.g.clients = sysC5kick.g.clients ++ [m2] := by
  have h := c5_ban_blocks_rejoin_kick_does_not sysAB 1 userCarol userCarol 1
    rfl (by decide) (by decide)
  exact ⟨h.1 sysC5ban rfl rfl (by decide), h.2 sysC5kick rfl rfl (by decide)⟩

/-- When `Client.send` does deliver the message, the broadcast loop keeps
exactly the read-permitted, non-excluded clients of the list. -/
theorem broadcastLoop_eq_filter (s : Sys) (msg : String) (exc : Option CRef)
    (hsend : Client.send_delivers msg = true) (l : List CRef) :
    broadcastLoop s msg exc l = l.filter (fun c =>
      Permissions.read_messages (permValOf s c) && notExcluded s exc c) := by
  induction l with
  | nil => rfl
  | cons c cs ih =>
    unfold broadcastLoop
    rw [hsend, List.filter_cons]
    by_cases h : (Permissions.read_messages (permValOf s c) && notExcluded s exc c) = true
    · rw [if_pos h, if_pos h, ih]
      rfl
    · rw [if_neg h, if_neg h, ih]

/-- Claim C8 (amended): for every message that does not strip to the empty
string, `broadcast` delivers to exactly the roster members whose
`read_messages` bit is set and who are not the excluded member; a message
consisting only of whitespace is delivered to nobody (dropped by
`Client.send`). -/
theorem c8_broadcast_recipients (s : Sys) (msg : String) (exc : Option CRef)
    (hmsg : pyStrip msg ≠ "") :
    broadcast s msg exc = specRecipients s exc := by
  have hsend : Client.send_delivers msg = true := by
    unfold Client.send_delivers
    simp [hmsg]
  unfold broadcast specRecipients
  exact broadcastLoop_eq_filter s msg exc hsend s.g.clients

/-- Witness for the amended C8: broadcasting "hello" in the two-member
group reaches exactly the spec-side recipient list. -/
theorem c8_broadcast_recipients_witness :
    broadcast sysAB "hello" none = specRecipients sysAB none :=
  c8_broadcast_recipients sysAB "hello" none (by decide)

/-- Claim C8 (counterexample): broadcasting the whitespace-only message
" " in the two-member group delivers to nobody, although both roster
members hold the `read_messages` bit and neither is excluded — `send`
drops messages that strip to empty, so the claim's "for every message"
fails. -/
theorem c8_counterexample_whitespace_message :
    broadcast sysAB " " none = []
    ∧ specRecipients sysAB none = [0, 1]
    ∧ Permissions.read_messages (permValOf sysAB 0) = true
    ∧ Permissions.read_messages (permValOf sysAB 1) = true := by
  exact ⟨rfl, rfl, rfl, rfl⟩

/-- Appending a different element preserves non-membership. -/
theorem contains_concat_ne (l : List Nat) (a b : Nat)
    (h1 : l.contains b = false) (h2 : b ≠ a) :
    (l ++ [a]).contains b = false := by
  simp only [List.contains, List.elem_eq_mem, decide_eq_false_iff_not, List.mem_append,
    List.mem_singleton] at h1 ⊢
  rintro (h | h)
  · exact h1 h
  · exact h2 h

/-- A successful `ban` adds exactly the banned member's identity to the
ban set: the identity is contained afterwards, and any other identity not
contained before is still not contained. -/
theorem ban_bans_uid (s1 : Sys) (m : CRef) (s2 : Sys)
    (hb : Client.ban s1 m = .ok s2) :
    s2.g.bans.contains (cobj s1 m).uid = true
    ∧ ∀ b, s1.g.bans.contains b = false → b ≠ (cobj s1 m).uid →
        s2.g.bans.contains b = false := by
  cases how : isOwner s1 m with
  | true =>
    unfold Client.ban Client.kick at hb
    rw [how] at hb
    simp at hb
  | false =>
    unfold Client.ban Client.kick at hb
    rw [how] at hb
    simp only [Bool.false_eq_true, if_false, bans_kill, uid_kill, Except.ok.injEq] at hb
    subst hb
    constructor
    · by_cases hc : s1.g.bans.contains (cobj s1 m).uid = true
      · rw [if_pos hc]
        exact hc
      · rw [if_neg hc]
        exact contains_concat_self _ _
    · intro b hb1 hbne
      by_cases hc : s1.g.bans.contains (cobj s1 m).uid = true
      · rw [if_pos hc]
        exact hb1
      · rw [if_neg hc]
        exact contains_concat_ne _ _ _ hb1 hbne

/-- Claim C10: a successful `Group.add` of a bare user creates the member
with a freshly drawn `uuid4` identity — the current counter value — which
differs from the identity of the presented `User` object (drawn earlier,
hence smaller); consequently a later `ban` of that member records the
fresh identity in the ban set and never the user's original identity. -/
theorem c10_add_generates_fresh_identity (s : Sys) (u : UserObj) (dp : PRef)
    (hdp : s.g.defaultPermRef = some dp)
    (hname : u.name ≠ "")
    (hsock : ∀ c ∈ s.g.clients, (cobj s c).sock ≠ u.sock)
    (hban : s.g.bans.contains u.uid = false)
    (hu : u.uid < s.nextUid) :
    ∃ s1 m, Group.add s u = .ok (s1, m)
      ∧ (cobj s1 m).uid = s.nextUid
      ∧ (cobj s1 m).uid ≠ u.uid
      ∧ ∀ s2, Client.ban s1 m = .ok s2 →
          s2.g.bans.contains s.nextUid = true
          ∧ s2.g.bans.contains u.uid = false := by
  have hfb := firstBySock_eq_none s u.sock s.g.clients hsock
  unfold Group.add
  rw [hfb, hban]
  simp only [Bool.false_eq_true, if_false, hdp]
  rw [if_neg hname]
  refine ⟨_, _, rfl, ?_, ?_, ?_⟩
  · unfold cobj
    simp [List.getD_eq_getElem?_getD, List.getElem?_concat_length]
  · unfold cobj
    simp only [List.getD_eq_getElem?_getD, List.getElem?_concat_length, Option.getD_some]
    exact (Nat.ne_of_lt hu).symm
  · intro s2 hb
    have h := ban_bans_uid _ _ _ hb
    unfold cobj at h
    simp only [List.getD_eq_getElem?_getD, List.getElem?_concat_length, Option.getD_some] at h
    exact ⟨h.1, h.2 u.uid hban (Nat.ne_of_lt hu)⟩

/-- Witness for C10: adding the user "bob" (identity 2) to the founded
group yields a member with the fresh identity 3, and banning that member
records 3, never 2. -/
theorem c10_add_generates_fresh_identity_witness :
    ∃ s1 m, Group.add sysA2 userBob = .ok (s1, m)
      ∧ (cobj s1 m).uid = sysA2.nextUid
      ∧ (cobj s1 m).uid ≠ userBob.uid
      ∧ ∀ s2, Client.ban s1 m = .ok s2 →
          s2.g.bans.contains sysA2.nextUid = true
          ∧ s2.g.bans.contains userBob.uid = false :=
  c10_add_generates_fresh_identity sysA2 userBob 1
    rfl (by decide) (by decide) (by decide) (by decide)

/-- Claim C6 (counterexample): for the line "/setperms 007 bob" every
precondition of the claim holds — the actor (the owner, value 255) holds
`update_permissions`, the numeric token "007" parses to 7 in `[0,255]`,
the actor's set is a superset of 7, and "bob" resolves to a current,
non-actor, non-owner member with permissions 19 below the actor's — yet
the dispatcher replies "User not found!" and leaves bob's permissions at
19: the nickname slice `decoded[11+len(str(number)):]` assumes the token
is written canonically, and for "007" it yields "7 bob". -/
theorem c6_counterexample_noncanonical_token :
    pyInt "007" = some 7
    ∧ setpermsPre sysAB 0 7 "bob" = true
    ∧ Group.search_member sysAB "bob" = some 1
    ∧ handleSetperms sysAB 0 "/setperms 007 bob" = (sysAB, .reply "User not found!")
    ∧ permValOf sysAB 1 = 19 := by
  exact ⟨rfl, rfl, rfl, rfl, rfl⟩

/-- Updating a permission object leaves every client object unchanged. -/
theorem cobj_pstore_set (s : Sys) (r : PRef) (w : Nat) (c : CRef) :
    cobj { s with pstore := s.pstore.set r w } c = cobj s c := rfl

/-- Reading back an in-range permission object just written. -/
theorem pval_pstore_set_self (s : Sys) (r : PRef) (w : Nat) (h : r < s.pstore.length) :
    pval { s with pstore := s.pstore.set r w } r = w := by
  unfold pval
  simp [List.getD_eq_getElem?_getD, List.getElem?_set, h]

/-- Claim C6 (amended): for a line "/setperms <value> <nickname>" in which
the value token is the canonical decimal form of `v ≤ 255` and single
spaces separate the parts (the hypotheses record what that form means to
the parser and the nickname slice `decoded[11+len(str(number)):]`): when
every precondition of the claim holds, the dispatcher applies
`set_permissions v` to the target, whose permission value becomes `v`,
and broadcasts; when any precondition fails, the state is unchanged and
the actor receives a rejection reply. -/
theorem c6_setperms_dispatch (s : Sys) (actor : CRef) (v : Nat) (nick : String)
    (decoded : String) (rest : List String)
    (hform : decoded = "/setperms " ++ toString v ++ " " ++ nick)
    (htok : pySplitWs (decoded.drop 10) = toString v :: rest)
    (hparse : pyInt (toString v) = some (v : Int))
    (hnick : decoded.drop (11 + (toString v).length) = nick)
    (hv : v ≤ 255) :
    ((setpermsPre s actor v nick = false) →
      (handleSetperms s actor decoded).1 = s
      ∧ ∃ msg, (handleSetperms s actor decoded).2 = .reply msg)
    ∧ (∀ t pr, Group.search_member s nick = some t →
        (cobj s t).permRef = some pr → pr < s.pstore.length →
        setpermsPre s actor v nick = true →
        ∃ s2 msg, handleSetperms s actor decoded = (s2, .broadcastMsg msg)
          ∧ permValOf s2 t = v) := by
  have hrange : ¬((v : Int) < 0 ∨ (v : Int) > 255) := by
    push_neg
    constructor
    · exact Int.natCast_nonneg v
    · exact_mod_cast hv
  have hred : handleSetperms s actor decoded =
      if !(Permissions.update_permissions (permValOf s actor)) then
        (s, .reply "Permission denied!")
      else if !(Permissions.ge (permValOf s actor) v) then
        (s, .reply "Cannot change permissions you do not have!")
      else
        match Group.search_member s nick with
        | none => (s, .reply "User not found!")
        | some member =>
          if (cobj s actor).sock == (cobj s member).sock then
            (s, .reply "You cannot change yourself permissions!")
          else if isOwner s member then
            (s, .reply "Owner cannot be changed permissions!")
          else if !(Permissions.le (permValOf s member) (permValOf s actor)) then
            (s, .reply "Cannot set these permissions for member as they have permissions you do not have!")
          else
            match Client.set_permissions s member (v : Int) with
            | .ok s2 => (s2, .broadcastMsg ((cobj s2 member).nickname.getD ""
                ++ " now has permissions value " ++ toString v ++ "!"))
            | .error _ => (s, .reply "") := by
    unfold handleSetperms
    rw [htok]
    simp only [hparse, Int.toNat_ofNat, hnick]
    rw [if_neg hrange]
  constructor
  · intro hpre
    rw [hred]
    by_cases h1 : Permissions.update_permissions (permValOf s actor) = true
    · by_cases h2 : Permissions.ge (permValOf s actor) v = true
      · cases hs : Group.search_member s nick with
        | none => simp [h1, h2, hs]
        | some t =>
          by_cases h3 : ((cobj s actor).sock == (cobj s t).sock) = true
          · simp [h1, h2, hs, h3]
          · by_cases h4 : isOwner s t = true
            · simp [h1, h2, hs, h3, h4]
            · by_cases h5 : Permissions.le (permValOf s t) (permValOf s actor) = true
              · exfalso
                have hp : setpermsPre s actor v nick = true := by
                  unfold setpermsPre
                  rw [hs]
                  simp [h1, h2, h3, h4, h5]
                rw [hpre] at hp
                exact Bool.false_ne_true hp
              · simp [h1, h2, hs, h3, h4, h5]
      · simp [h1, h2]
    · simp [h1]
  · intro t pr hs hpr hprlt hpre
    unfold setpermsPre at hpre
    rw [hs] at hpre
    simp only [Bool.and_eq_true, Bool.not_eq_true'] at hpre
    obtain ⟨⟨h1, h2⟩, ⟨h3, h4⟩, h5⟩ := hpre
    rw [hred, hs]
    simp only [h1, h2, h3, h4, h5, Bool.not_true, Bool.not_false, Bool.false_eq_true,
      if_false, if_true]
    unfold Client.set_permissions
    rw [hpr]
    dsimp only
    by_cases heq : (v : Int) = (pval s pr : Int)
    · rw [if_pos heq]
      dsimp only
      refine ⟨s, _, rfl, ?_⟩
      unfold permValOf
      rw [hpr]
      exact_mod_cast heq.symm
    · rw [if_neg heq, if_neg (by rw [h4]; exact Bool.false_ne_true)]
      unfold permUpdate
      rw [if_neg (by push_neg at hrange; omega), if_neg (by push_neg at hrange; omega)]
      dsimp only
      refine ⟨_, _, rfl, ?_⟩
      unfold permValOf
      rw [show ((v : Int)).toNat = v from rfl, cobj_pstore_set, hpr]
      dsimp only
      exact pval_pstore_set_self s pr v hprlt

/-- Witness for the amended C6 at the canonical line "/setperms 7 bob" in
the two-member group: both halves of the dispatch property instantiate. -/
theorem c6_setperms_dispatch_witness :
    ((setpermsPre sysAB 0 7 "bob" = false) →
      (handleSetperms sysAB 0 "/setperms 7 bob").1 = sysAB
      ∧ ∃ msg, (handleSetperms sysAB 0 "/setperms 7 bob").2 = .reply msg)
    ∧ (∀ t pr, Group.search_member sysAB "bob" = some t →
        (cobj sysAB t).permRef = some pr → pr < sysAB.pstore.length →
        setpermsPre sysAB 0 7 "bob" = true →
        ∃ s2 msg, handleSetperms sysAB 0 "/setperms 7 bob" = (s2, .broadcastMsg msg)
          ∧ permValOf s2 t = 7) :=
  c6_setperms_dispatch sysAB 0 7 "bob" "/setperms 7 bob" ["bob"]
    (by decide) (by decide) (by decide) (by decide) (by decide)
